import Mathlib

/-!
# ec2-win-pkcs11: the `run` workflow of `main.go`

A shallow embedding of `main.go`.  The program is one sequential function, `run`,
that talks to four collaborators: the PKCS#11 driver (`github.com/miekg/pkcs11`),
the AWS SDK, `encoding/base64` and the terminal (`golang.org/x/term`).

The collaborators are gathered in a `World`: every entry point `run` calls is a
field that gives the answer of that entry point for the arguments it receives.
`run` itself is translated statement by statement; it returns the error value of
the Go function together with the ordered list of driver calls it made (the
trace: calls of deferred functions are appended where Go runs them, at return,
last registered first) and what it wrote to standard output.

Go strings are embedded as Lean strings, byte slices as lists of numbers.  An
entry point answers as a function of its arguments; `run` calls each of them at
most once, except `GetTokenInfo`, called once for a slot of the enumeration.
Functions of the Go standard library are embedded by what they compute
(`strings.TrimSpace`) or taken as given (`base64`, the verb `%q`).
-/

namespace Ec2WinPkcs11

/-! ## Data -/

/-- An error value returned by a collaborator, kept as its message. -/
abbrev GoError := String

/-- A byte slice (`[]byte`). -/
abbrev Bytes := List Nat

/-- Slot identifier (`uint`). -/
abbrev SlotID := Nat

/-- Session handle (`pkcs11.SessionHandle`). -/
abbrev SessionHandle := Nat

/-- Object handle (`pkcs11.ObjectHandle`). -/
abbrev ObjectHandle := Nat

/-- Configuration value returned by `config.LoadDefaultConfig`. -/
abbrev AwsConfig := Nat

/-- The fields of `pkcs11.TokenInfo` that identify a token; `run` reads only
`SerialNumber`. -/
structure TokenInfo where
  Label : String
  ManufacturerID : String
  Model : String
  SerialNumber : String
deriving DecidableEq, Repr

/-- Constant `pkcs11.CKF_SERIAL_SESSION`. -/
def CKF_SERIAL_SESSION : Nat := 0x4

/-- Constant `pkcs11.CKU_USER`. -/
def CKU_USER : Nat := 1

/-- Constant `pkcs11.CKA_CLASS`. -/
def CKA_CLASS : Nat := 0x0

/-- Constant `pkcs11.CKA_ID`. -/
def CKA_ID : Nat := 0x102

/-- Constant `pkcs11.CKO_PRIVATE_KEY`. -/
def CKO_PRIVATE_KEY : Nat := 0x3

/-- Constant `pkcs11.CKM_RSA_PKCS`. -/
def CKM_RSA_PKCS : Nat := 0x1

/-- The value handed to `pkcs11.NewAttribute`: a byte slice or an unsigned number. -/
inductive AttrValue where
  | bytes (b : Bytes)
  | uint (n : Nat)
deriving DecidableEq, Repr

/-- Value built by `pkcs11.NewAttribute(typ, x)`. -/
structure Attribute where
  typ : Nat
  value : AttrValue
deriving DecidableEq, Repr

/-- Value built by `pkcs11.NewMechanism(mech, x)`; `none` is a `nil` parameter. -/
structure Mechanism where
  mechanism : Nat
  parameter : Option Bytes
deriving DecidableEq, Repr

/-- A call of `run` into the PKCS#11 driver, with its arguments. -/
inductive Call where
  | New (libPath : String)
  | Initialize
  | Destroy
  | Finalize
  | GetSlotList (tokenPresent : Bool)
  | GetTokenInfo (slot : SlotID)
  | OpenSession (slot : SlotID) (flags : Nat)
  | CloseSession (session : SessionHandle)
  | Login (session : SessionHandle) (userType : Nat) (pin : String)
  | Logout (session : SessionHandle)
  | FindObjectsInit (session : SessionHandle) (template : List Attribute)
  | FindObjects (session : SessionHandle) (max : Nat)
  | FindObjectsFinal (session : SessionHandle)
  | DecryptInit (session : SessionHandle) (mechanism : List Mechanism) (key : ObjectHandle)
  | Decrypt (session : SessionHandle) (ciphertext : Bytes)
deriving DecidableEq, Repr

/-- A write of `run` to standard output. -/
inductive Output where
  /-- Call `fmt.Print(s)`, and `fmt.Printf` once formatted. -/
  | print (s : String)
  /-- Call `fmt.Println(s)`. -/
  | println (s : String)
  /-- Call `fmt.Println(string(b))` for a byte slice `b`. -/
  | printlnBytes (b : Bytes)
deriving DecidableEq, Repr

/-- The error values `run` returns, one constructor per `return` of an error in
`main.go`, carrying the arguments of the format string. -/
inductive RunError where
  /-- Message `platform not supported`. -/
  | platformNotSupported
  /-- Message `failed to load PKCS#11 library: %s`. -/
  | loadLibrary (libPath : String)
  /-- Message `failed to initialize PKCS#11: %w`. -/
  | initializeFailed (e : GoError)
  /-- Message `failed to get slot list: %w`. -/
  | getSlotList (e : GoError)
  /-- Message `no tokens found`. -/
  | noTokens
  /-- Message `token with serial %q not found`. -/
  | tokenNotFound (tokenSerial : String)
  /-- Message `failed to get token info: %w`. -/
  | getTokenInfo (e : GoError)
  /-- Message `could not find profile %q: %w`. -/
  | loadProfile (profile : String) (e : GoError)
  /-- Message `failed to get password data: %w`. -/
  | getPasswordData (e : GoError)
  /-- Message `failed to decode password data: %w`. -/
  | decodePasswordData (e : GoError)
  /-- Message `failed to read PIN: %w`. -/
  | readPIN (e : GoError)
  /-- Message `failed to open session: %w`. -/
  | openSession (e : GoError)
  /-- Message `failed to login: %w`. -/
  | login (e : GoError)
  /-- Message `failed to init find objects: %w`. -/
  | findObjectsInit (e : GoError)
  /-- Message `failed to find objects: %w`. -/
  | findObjects (e : GoError)
  /-- Message `failed to finalize find objects: %w`. -/
  | findObjectsFinal (e : GoError)
  /-- Message `PIV AUTH key not found`. -/
  | keyNotFound
  /-- Message `failed to init decrypt: %w`. -/
  | decryptInit (e : GoError)
  /-- Message `failed to decrypt: %w`. -/
  | decrypt (e : GoError)
deriving DecidableEq, Repr

/-- The text of an error of `run`.  The verb `%q` of `fmt` is `strconv.Quote`,
taken as the parameter `quote`. -/
def RunError.message (quote : String → String) : RunError → String
  | .platformNotSupported => "platform not supported"
  | .loadLibrary libPath => "failed to load PKCS#11 library: " ++ libPath
  | .initializeFailed e => "failed to initialize PKCS#11: " ++ e
  | .getSlotList e => "failed to get slot list: " ++ e
  | .noTokens => "no tokens found"
  | .tokenNotFound tokenSerial => "token with serial " ++ quote tokenSerial ++ " not found"
  | .getTokenInfo e => "failed to get token info: " ++ e
  | .loadProfile profile e => "could not find profile " ++ quote profile ++ ": " ++ e
  | .getPasswordData e => "failed to get password data: " ++ e
  | .decodePasswordData e => "failed to decode password data: " ++ e
  | .readPIN e => "failed to read PIN: " ++ e
  | .openSession e => "failed to open session: " ++ e
  | .login e => "failed to login: " ++ e
  | .findObjectsInit e => "failed to init find objects: " ++ e
  | .findObjects e => "failed to find objects: " ++ e
  | .findObjectsFinal e => "failed to finalize find objects: " ++ e
  | .keyNotFound => "PIV AUTH key not found"
  | .decryptInit e => "failed to init decrypt: " ++ e
  | .decrypt e => "failed to decrypt: " ++ e

/-- What `run` is given and what its collaborators answer.

The first group is the process environment: `runtime.GOOS` and the four command
line flags as `cli.Context.String` returns them.  The other fields are the entry
points `run` calls, each as the function from its arguments to its answer
(`none` for a `nil` error, `some e` for the error `e`). -/
structure World where
  GOOS : String
  instanceID : String
  profile : String
  tokenSerial : String
  libPath : String
  /-- Whether `pkcs11.New(libPath)` returns a non-nil context. -/
  New : String → Bool
  Initialize : Option GoError
  GetSlotList : Bool → Except GoError (List SlotID)
  GetTokenInfo : SlotID → Except GoError TokenInfo
  OpenSession : SlotID → Nat → Except GoError SessionHandle
  Login : SessionHandle → Nat → String → Option GoError
  FindObjectsInit : SessionHandle → List Attribute → Option GoError
  /-- The objects returned by `FindObjects(session, max)`. -/
  FindObjects : SessionHandle → Nat → Except GoError (List ObjectHandle)
  FindObjectsFinal : SessionHandle → Option GoError
  DecryptInit : SessionHandle → List Mechanism → ObjectHandle → Option GoError
  Decrypt : SessionHandle → Bytes → Except GoError Bytes
  /-- Call `config.LoadDefaultConfig(ctx, config.WithSharedConfigProfile(profile))`. -/
  LoadDefaultConfig : String → Except GoError AwsConfig
  /-- Field `PasswordData` of the answer of `ec2Client.GetPasswordData` for the client
  of a configuration and an instance id; `none` is a `nil` pointer. -/
  GetPasswordData : AwsConfig → String → Except GoError (Option String)
  /-- Function `base64.StdEncoding.DecodeString`. -/
  DecodeString : String → Except GoError Bytes
  /-- Call `term.ReadPassword(int(os.Stdin.Fd()))`, its bytes converted to a string. -/
  ReadPassword : Except GoError String

/-- What one execution of `run` did: the error it returned (`none` for `nil`), the
driver calls it made, in order, and its writes to standard output, in order. -/
structure RunResult where
  err : Option RunError
  trace : List Call
  stdout : List Output
deriving DecidableEq, Repr

/-! ## `strings.TrimSpace` -/

/-- Function `unicode.IsSpace`: the code points with the Unicode property White_Space. -/
def isSpace (c : Char) : Bool :=
  let n := c.toNat
  n = 0x20 || (0x09 ≤ n && n ≤ 0x0D) || n = 0x85 || n = 0xA0 || n = 0x1680 ||
    (0x2000 ≤ n && n ≤ 0x200A) || n = 0x2028 || n = 0x2029 || n = 0x202F ||
    n = 0x205F || n = 0x3000

/-- Function `strings.TrimSpace` on the code points of a string: all leading and
trailing white space removed. -/
def trimSpaceChars (cs : List Char) : List Char :=
  ((cs.dropWhile isSpace).reverse.dropWhile isSpace).reverse

/-- Function `strings.TrimSpace`. -/
def TrimSpace (s : String) : String :=
  String.mk (trimSpaceChars s.data)

/-! ## `main.go` -/

/-- Function `defaultPkcs11LibPath` (lines 20-36); `goos` is `runtime.GOOS`.  For
`windows` the value is `filepath.Join` of the six elements on that platform. -/
def defaultPkcs11LibPath (goos : String) : Except RunError String :=
  if goos = "linux" then
    .ok "/usr/lib/x86_64-linux-gnu/opensc-pkcs11.so"
  else if goos = "windows" then
    .ok "C:\\Program Files\\Yubico\\Yubico PIV Tool\\bin\\libykcs11.dll"
  else
    .error .platformNotSupported

/-- The calls `t` and the writes `o` happened before those of `r`. -/
def RunResult.after (r : RunResult) (t : List Call) (o : List Output) : RunResult :=
  { err := r.err, trace := t ++ r.trace, stdout := o ++ r.stdout }

/-- The deferred calls `d` run when the function body that produced `r` returns. -/
def RunResult.thenDeferred (r : RunResult) (d : List Call) : RunResult :=
  { err := r.err, trace := r.trace ++ d, stdout := r.stdout }

/-- The loop of lines 118-130: the first slot whose token info is read without
error and whose trimmed serial is `tokenSerial`, with the `GetTokenInfo` calls made. -/
def findTokenBySerial (w : World) (tokenSerial : String) :
    List SlotID → Option (SlotID × TokenInfo) × List Call
  | [] => (none, [])
  | slot :: rest =>
    match w.GetTokenInfo slot with
    | .error _ =>
      let r := findTokenBySerial w tokenSerial rest
      (r.1, Call.GetTokenInfo slot :: r.2)
    | .ok tokenInfo =>
      if TrimSpace tokenInfo.SerialNumber = tokenSerial then
        (some (slot, tokenInfo), [Call.GetTokenInfo slot])
      else
        let r := findTokenBySerial w tokenSerial rest
        (r.1, Call.GetTokenInfo slot :: r.2)

/-- The loop of lines 146-152: the trimmed serial of every slot whose token info is
read without error is printed, with the `GetTokenInfo` calls made. -/
def listTokenSerials (w : World) : List SlotID → List Output × List Call
  | [] => ([], [])
  | slot :: rest =>
    let r := listTokenSerials w rest
    match w.GetTokenInfo slot with
    | .error _ => (r.1, Call.GetTokenInfo slot :: r.2)
    | .ok tokenInfo =>
      (Output.println (TrimSpace tokenInfo.SerialNumber) :: r.1, Call.GetTokenInfo slot :: r.2)

/-- How lines 111-154 end. -/
inductive Selection where
  /-- The variables `selectedSlot` and `selectedTokenInfo` are set and `found` is true. -/
  | selected (selectedSlot : SlotID) (selectedTokenInfo : TokenInfo)
  /-- Returned with an error (lines 132 and 139). -/
  | failed (err : RunError)
  /-- Returned `nil` after listing the serials (line 153). -/
  | listed
deriving DecidableEq, Repr

/-- Lines 111-154 of `run`: finding the token among `slots`, with the driver calls
made and the lines written. -/
def selectToken (w : World) (slots : List SlotID) : Selection × List Call × List Output :=
  if w.tokenSerial ≠ "" then
    match findTokenBySerial w w.tokenSerial slots with
    | (some (slot, tokenInfo), t) => (.selected slot tokenInfo, t, [])
    | (none, t) => (.failed (.tokenNotFound w.tokenSerial), t, [])
  else
    match slots with
    | [slot] =>
      match w.GetTokenInfo slot with
      | .error e => (.failed (.getTokenInfo e), [Call.GetTokenInfo slot], [])
      | .ok tokenInfo => (.selected slot tokenInfo, [Call.GetTokenInfo slot], [])
    | _ =>
      let r := listTokenSerials w slots
      (.listed, r.2,
        Output.println "Multiple tokens found. Please provide token serial number." ::
        Output.println "Available token serial numbers:" :: r.1)

/-- The search template of lines 210-213: id `0x01` and class private key. -/
def template : List Attribute :=
  [⟨CKA_ID, .bytes [0x01]⟩, ⟨CKA_CLASS, .uint CKO_PRIVATE_KEY⟩]

/-- The mechanism of line 233: RSA PKCS #1 v1.5, no parameter. -/
def mechanism : List Mechanism := [⟨CKM_RSA_PKCS, none⟩]

/-- Lines 209-244 of `run`: key lookup and decryption in a logged-in session. -/
def runLoggedIn (w : World) (session : SessionHandle) (passwordDataRaw : Bytes) : RunResult :=
  match w.FindObjectsInit session template with
  | some e => ⟨some (.findObjectsInit e), [.FindObjectsInit session template], []⟩
  | none =>
    match w.FindObjects session 1 with
    | .error e =>
      ⟨some (.findObjects e), [.FindObjectsInit session template, .FindObjects session 1], []⟩
    | .ok objs =>
      match w.FindObjectsFinal session with
      | some e =>
        ⟨some (.findObjectsFinal e),
          [.FindObjectsInit session template, .FindObjects session 1,
            .FindObjectsFinal session], []⟩
      | none =>
        match objs with
        | [] =>
          ⟨some .keyNotFound,
            [.FindObjectsInit session template, .FindObjects session 1,
              .FindObjectsFinal session], []⟩
        | obj0 :: _ =>
          match w.DecryptInit session mechanism obj0 with
          | some e =>
            ⟨some (.decryptInit e),
              [.FindObjectsInit session template, .FindObjects session 1,
                .FindObjectsFinal session, .DecryptInit session mechanism obj0], []⟩
          | none =>
            match w.Decrypt session passwordDataRaw with
            | .error e =>
              ⟨some (.decrypt e),
                [.FindObjectsInit session template, .FindObjects session 1,
                  .FindObjectsFinal session, .DecryptInit session mechanism obj0,
                  .Decrypt session passwordDataRaw], []⟩
            | .ok decrypted =>
              ⟨none,
                [.FindObjectsInit session template, .FindObjects session 1,
                  .FindObjectsFinal session, .DecryptInit session mechanism obj0,
                  .Decrypt session passwordDataRaw], [.printlnBytes decrypted]⟩

/-- Lines 203-244 of `run`: login in an open session, then the rest with
`Logout` deferred (line 207). -/
def runInSession (w : World) (session : SessionHandle) (pin : String)
    (passwordDataRaw : Bytes) : RunResult :=
  match w.Login session CKU_USER pin with
  | some e => ⟨some (.login e), [.Login session CKU_USER pin], []⟩
  | none =>
    ((runLoggedIn w session passwordDataRaw).thenDeferred [.Logout session]).after
      [.Login session CKU_USER pin] []

/-- Lines 156-244 of `run`: the password data is fetched and decoded, the PIN read,
the session opened with `CloseSession` deferred (line 201). -/
def runSelected (w : World) (selectedSlot : SlotID) (selectedTokenInfo : TokenInfo) :
    RunResult :=
  let banner : List Output :=
    [.print ("Using token serial number: " ++ TrimSpace selectedTokenInfo.SerialNumber ++ "\n")]
  match w.LoadDefaultConfig w.profile with
  | .error e => ⟨some (.loadProfile w.profile e), [], banner⟩
  | .ok cfg =>
    match w.GetPasswordData cfg w.instanceID with
    | .error e => ⟨some (.getPasswordData e), [], banner⟩
    | .ok none => ⟨none, [], banner ++ [.println "Instance is not ready yet."]⟩
    | .ok (some passwordData) =>
      if passwordData = "" then
        ⟨none, [], banner ++ [.println "Instance is not ready yet."]⟩
      else
        match w.DecodeString passwordData with
        | .error e => ⟨some (.decodePasswordData e), [], banner⟩
        | .ok passwordDataRaw =>
          match w.ReadPassword with
          | .error e => ⟨some (.readPIN e), [], banner ++ [.print "PIN: "]⟩
          | .ok pin =>
            let prompted : List Output := banner ++ [.print "PIN: ", .println ""]
            match w.OpenSession selectedSlot CKF_SERIAL_SESSION with
            | .error e =>
              ⟨some (.openSession e), [.OpenSession selectedSlot CKF_SERIAL_SESSION], prompted⟩
            | .ok session =>
              ((runInSession w session pin passwordDataRaw).thenDeferred
                [.CloseSession session]).after
                [.OpenSession selectedSlot CKF_SERIAL_SESSION] prompted

/-- Lines 79-87 of `run`: the library path, the flag `lib` or else the default of
the platform. -/
def resolveLibPath (w : World) : Except RunError String :=
  if w.libPath = "" then defaultPkcs11LibPath w.GOOS else .ok w.libPath

/-- Lines 101-244 of `run`: the body run once the driver is initialised. -/
def runInitialized (w : World) : RunResult :=
  match w.GetSlotList true with
  | .error e => ⟨some (.getSlotList e), [.GetSlotList true], []⟩
  | .ok slots =>
    if slots.length = 0 then
      ⟨some .noTokens, [.GetSlotList true], []⟩
    else
      match selectToken w slots with
      | (.failed err, t, o) => ⟨some err, .GetSlotList true :: t, o⟩
      | (.listed, t, o) => ⟨none, .GetSlotList true :: t, o⟩
      | (.selected selectedSlot selectedTokenInfo, t, o) =>
        (runSelected w selectedSlot selectedTokenInfo).after (.GetSlotList true :: t) o

/-- Function `run` (lines 75-245).  `Destroy` and `Finalize` are deferred at lines
98-99, so they run at return in the order `Finalize`, `Destroy`. -/
def run (w : World) : RunResult :=
  match resolveLibPath w with
  | .error e => ⟨some e, [], []⟩
  | .ok libPath =>
    if w.New libPath = false then
      ⟨some (.loadLibrary libPath), [.New libPath], []⟩
    else
      match w.Initialize with
      | some e => ⟨some (.initializeFailed e), [.New libPath, .Initialize], []⟩
      | none =>
        ((runInitialized w).thenDeferred [.Finalize, .Destroy]).after
          [.New libPath, .Initialize] []

/-! ## Notions used to state the properties -/

/-- The trimmed serial a slot reports, if its token info can be read. -/
def reportedSerial (w : World) (slot : SlotID) : Option String :=
  match w.GetTokenInfo slot with
  | .ok tokenInfo => some (TrimSpace tokenInfo.SerialNumber)
  | .error _ => none

/-- The cleanup calls of the workflow: `Logout`, `CloseSession`, `Finalize`. -/
def Call.isCleanup : Call → Bool
  | .Logout _ => true
  | .CloseSession _ => true
  | .Finalize => true
  | _ => false

/-- The calls that need an open session: opening it, login, key lookup, decryption. -/
def Call.isSessionUse : Call → Bool
  | .OpenSession _ _ => true
  | .Login _ _ _ => true
  | .FindObjectsInit _ _ => true
  | .FindObjects _ _ => true
  | .FindObjectsFinal _ => true
  | .DecryptInit _ _ _ => true
  | .Decrypt _ _ => true
  | _ => false

/-- The calls of key lookup and decryption. -/
def Call.isKeyUse : Call → Bool
  | .FindObjectsInit _ _ => true
  | .FindObjects _ _ => true
  | .FindObjectsFinal _ => true
  | .DecryptInit _ _ _ => true
  | .Decrypt _ _ => true
  | _ => false

/-- The failures of step 6 (finding the key object) and step 7 (decrypting). -/
def RunError.isKeyOrDecryptFailure : RunError → Bool
  | .findObjectsInit _ => true
  | .findObjects _ => true
  | .findObjectsFinal _ => true
  | .keyNotFound => true
  | .decryptInit _ => true
  | .decrypt _ => true
  | _ => false

/-- The cleanup calls `cleanup` made by a part of `run` that returned the error `e`,
when `tail` is what is deferred outside any session: `Logout` and `CloseSession`
come first after a failure of key lookup or decryption, `CloseSession` alone after
a refused login, and nothing after any other error. -/
def CleanupFor (e : RunError) (cleanup tail : List Call) : Prop :=
  (e.isKeyOrDecryptFailure = true ∧
    ∃ session, cleanup = Call.Logout session :: Call.CloseSession session :: tail) ∨
  ((∃ x, e = RunError.login x) ∧ ∃ session, cleanup = Call.CloseSession session :: tail) ∨
  (e.isKeyOrDecryptFailure = false ∧ (∀ x, e ≠ RunError.login x) ∧ cleanup = tail)

/-! ## Scenarios -/

/-- The bytes of the text `P@ssw0rd!`. -/
def passwordBytes : Bytes := "P@ssw0rd!".data.map Char.toNat

/-- One token with serial `12345678` (padded by the hardware) in slot 0, PIN
`123456`, one private key object, and a password blob that decrypts to
`P@ssw0rd!`. -/
def scenario : World where
  GOOS := "linux"
  instanceID := "i-0123456789abcdef0"
  profile := "default"
  tokenSerial := ""
  libPath := ""
  New := fun _ => true
  Initialize := none
  GetSlotList := fun _ => .ok [0]
  GetTokenInfo := fun slot =>
    if slot = 0 then .ok ⟨"PIV_II", "piv_II", "PKCS#15 emulated", "12345678        "⟩
    else if slot = 1 then .ok ⟨"PIV_II", "piv_II", "PKCS#15 emulated", "ABC123    "⟩
    else .error "CKR_SLOT_ID_INVALID"
  OpenSession := fun slot _ => .ok (slot + 100)
  Login := fun _ _ pin => if pin = "123456" then none else some "CKR_PIN_INCORRECT"
  FindObjectsInit := fun _ _ => none
  FindObjects := fun _ _ => .ok [7]
  FindObjectsFinal := fun _ => none
  DecryptInit := fun _ _ _ => none
  Decrypt := fun _ ciphertext =>
    if ciphertext = [1, 2, 3] then .ok passwordBytes else .error "CKR_ENCRYPTED_DATA_INVALID"
  LoadDefaultConfig := fun _ => .ok 0
  GetPasswordData := fun _ _ => .ok (some "AQID")
  DecodeString := fun s =>
    if s = "AQID" then .ok [1, 2, 3] else .error "illegal base64 data at input byte 0"
  ReadPassword := .ok "123456"

/-- No token is inserted. -/
def noTokenWorld : World :=
  { scenario with GetSlotList := fun _ => .ok [] }

/-- Two tokens are inserted, serials `12345678` and `ABC123` (both padded). -/
def twoTokenWorld : World :=
  { scenario with GetSlotList := fun _ => .ok [0, 1] }

/-- Two tokens are inserted and the serial `ABC123` is requested. -/
def requestedWorld : World :=
  { twoTokenWorld with tokenSerial := "ABC123" }

/-- Two tokens are inserted and a serial that neither has is requested. -/
def unknownSerialWorld : World :=
  { twoTokenWorld with tokenSerial := "XYZ789" }

/-- Two slots are enumerated; the token info of the second, slot 5, cannot be read. -/
def unreadableSecondWorld : World :=
  { scenario with GetSlotList := fun _ => .ok [0, 5] }

/-- One slot is enumerated and its token info cannot be read. -/
def unreadableTokenWorld : World :=
  { scenario with GetTokenInfo := fun _ => .error "CKR_DEVICE_ERROR" }

/-- The instance has no password data yet: the blob is the empty string. -/
def notReadyWorld : World :=
  { scenario with GetPasswordData := fun _ _ => .ok (some "") }

/-- The operator types a PIN the token rejects. -/
def wrongPinWorld : World :=
  { scenario with ReadPassword := .ok "000000" }

/-- The search is started and `FindObjects` then fails. -/
def findObjectsErrorWorld : World :=
  { scenario with FindObjects := fun _ _ => .error "CKR_DEVICE_ERROR" }

/-- The token holds no private key with id `0x01`. -/
def noKeyWorld : World :=
  { scenario with FindObjects := fun _ _ => .ok [] }

/-! ## The selection loops -/

theorem reportedSerial_ok (w : World) (slot : SlotID) (tokenInfo : TokenInfo)
    (h : w.GetTokenInfo slot = .ok tokenInfo) :
    reportedSerial w slot = some (TrimSpace tokenInfo.SerialNumber) := by
  simp [reportedSerial, h]

theorem reportedSerial_error (w : World) (slot : SlotID) (e : GoError)
    (h : w.GetTokenInfo slot = .error e) : reportedSerial w slot = none := by
  simp [reportedSerial, h]

/-- A slot that does not report the serial is passed over by the search loop. -/
theorem findTokenBySerial_skip (w : World) (r : String) (slot : SlotID) (rest : List SlotID)
    (h : reportedSerial w slot ≠ some r) :
    findTokenBySerial w r (slot :: rest) =
      ((findTokenBySerial w r rest).1, Call.GetTokenInfo slot :: (findTokenBySerial w r rest).2) := by
  cases hg : w.GetTokenInfo slot with
  | error e => simp [findTokenBySerial, hg]
  | ok tokenInfo =>
    have hne : TrimSpace tokenInfo.SerialNumber ≠ r := by
      intro heq
      exact h (by rw [reportedSerial_ok w slot tokenInfo hg, heq])
    simp [findTokenBySerial, hg, hne]

/-- The search loop stops at the first slot that reports the serial. -/
theorem findTokenBySerial_first (w : World) (r : String) (slot : SlotID)
    (post : List SlotID) (h : reportedSerial w slot = some r) :
    ∀ pre : List SlotID, (∀ p ∈ pre, reportedSerial w p ≠ some r) →
      ∃ tokenInfo, w.GetTokenInfo slot = .ok tokenInfo ∧
        TrimSpace tokenInfo.SerialNumber = r ∧
        findTokenBySerial w r (pre ++ slot :: post) =
          (some (slot, tokenInfo), (pre ++ [slot]).map Call.GetTokenInfo) := by
  intro pre
  induction pre with
  | nil =>
    intro _
    cases hg : w.GetTokenInfo slot with
    | error e => rw [reportedSerial_error w slot e hg] at h; exact absurd h (by simp)
    | ok tokenInfo =>
      rw [reportedSerial_ok w slot tokenInfo hg] at h
      have heq : TrimSpace tokenInfo.SerialNumber = r := by simpa using h
      exact ⟨tokenInfo, rfl, heq, by simp [findTokenBySerial, hg, heq]⟩
  | cons p pre ih =>
    intro hpre
    obtain ⟨tokenInfo, hg, heq, hfind⟩ := ih (fun q hq => hpre q (List.mem_cons_of_mem p hq))
    refine ⟨tokenInfo, hg, heq, ?_⟩
    rw [List.cons_append, findTokenBySerial_skip w r p _ (hpre p (List.mem_cons_self p pre)), hfind]
    simp

/-- The search loop finds nothing when no slot reports the serial, after asking
every slot. -/
theorem findTokenBySerial_none (w : World) (r : String) :
    ∀ slots : List SlotID, (∀ s ∈ slots, reportedSerial w s ≠ some r) →
      findTokenBySerial w r slots = (none, slots.map Call.GetTokenInfo) := by
  intro slots
  induction slots with
  | nil => intro _; rfl
  | cons p rest ih =>
    intro h
    rw [findTokenBySerial_skip w r p rest (h p (List.mem_cons_self p rest)),
      ih (fun q hq => h q (List.mem_cons_of_mem p hq))]
    simp

/-- The search loop calls nothing but `GetTokenInfo`. -/
theorem findTokenBySerial_calls (w : World) (r : String) :
    ∀ slots : List SlotID, ∀ c ∈ (findTokenBySerial w r slots).2, ∃ s, c = Call.GetTokenInfo s := by
  intro slots
  induction slots with
  | nil => intro c hc; simp [findTokenBySerial] at hc
  | cons p rest ih =>
    intro c hc
    unfold findTokenBySerial at hc
    split at hc
    · simp only [List.mem_cons] at hc
      rcases hc with hc | hc
      · exact ⟨p, hc⟩
      · exact ih c hc
    · split at hc
      · simp only [List.mem_cons, List.mem_nil_iff, or_false] at hc
        exact ⟨p, hc⟩
      · simp only [List.mem_cons] at hc
        rcases hc with hc | hc
        · exact ⟨p, hc⟩
        · exact ih c hc

/-- The listing loop asks every slot, in order. -/
theorem listTokenSerials_calls (w : World) (slots : List SlotID) :
    (listTokenSerials w slots).2 = slots.map Call.GetTokenInfo := by
  induction slots with
  | nil => rfl
  | cons p rest ih =>
    unfold listTokenSerials
    cases hg : w.GetTokenInfo p <;> simp [ih]

/-- The listing loop prints the trimmed serial of the slots that report one, in
order. -/
theorem listTokenSerials_lines (w : World) (slots : List SlotID) :
    (listTokenSerials w slots).1 =
      (slots.filterMap (reportedSerial w)).map Output.println := by
  induction slots with
  | nil => rfl
  | cons p rest ih =>
    unfold listTokenSerials
    cases hg : w.GetTokenInfo p with
    | error e => simp [ih, List.filterMap_cons, reportedSerial_error w p e hg]
    | ok tokenInfo => simp [ih, List.filterMap_cons, reportedSerial_ok w p tokenInfo hg]

/-- Lines 111-154 call nothing but `GetTokenInfo`. -/
theorem selectToken_calls (w : World) (slots : List SlotID) :
    ∀ c ∈ (selectToken w slots).2.1, ∃ s, c = Call.GetTokenInfo s := by
  intro c hc
  unfold selectToken at hc
  split at hc
  · have hcalls := findTokenBySerial_calls w w.tokenSerial slots
    split at hc
    · next heq => rw [heq] at hcalls; exact hcalls c hc
    · next heq => rw [heq] at hcalls; exact hcalls c hc
  · split at hc
    · split at hc <;>
        (simp only [List.mem_cons, List.mem_nil_iff, or_false] at hc; exact ⟨_, hc⟩)
    · simp only [listTokenSerials_calls, List.mem_map] at hc
      obtain ⟨s, _, hs⟩ := hc
      exact ⟨s, hs.symm⟩

/-! ## The paths through `run` -/

/-- The seven ways lines 209-244 end. -/
theorem runLoggedIn_cases (w : World) (session : SessionHandle) (raw : Bytes) :
    (∃ e, w.FindObjectsInit session template = some e ∧
      (runLoggedIn w session raw).err = some (.findObjectsInit e) ∧
      (runLoggedIn w session raw).trace = [.FindObjectsInit session template]) ∨
    (∃ e, w.FindObjectsInit session template = none ∧ w.FindObjects session 1 = .error e ∧
      (runLoggedIn w session raw).err = some (.findObjects e) ∧
      (runLoggedIn w session raw).trace =
        [.FindObjectsInit session template, .FindObjects session 1]) ∨
    (∃ objs, w.FindObjectsInit session template = none ∧ w.FindObjects session 1 = .ok objs ∧
      (((∃ e, (runLoggedIn w session raw).err = some (.findObjectsFinal e)) ∨
          (runLoggedIn w session raw).err = some .keyNotFound) ∧
        (runLoggedIn w session raw).trace =
          [.FindObjectsInit session template, .FindObjects session 1,
            .FindObjectsFinal session] ∨
      (∃ obj0, (∃ e, (runLoggedIn w session raw).err = some (.decryptInit e)) ∧
        (runLoggedIn w session raw).trace =
          [.FindObjectsInit session template, .FindObjects session 1,
            .FindObjectsFinal session, .DecryptInit session mechanism obj0]) ∨
      (∃ obj0, ((∃ e, (runLoggedIn w session raw).err = some (.decrypt e)) ∨
          (runLoggedIn w session raw).err = none) ∧
        (runLoggedIn w session raw).trace =
          [.FindObjectsInit session template, .FindObjects session 1,
            .FindObjectsFinal session, .DecryptInit session mechanism obj0,
            .Decrypt session raw]))) := by
  unfold runLoggedIn
  cases h1 : w.FindObjectsInit session template with
  | some e => exact Or.inl ⟨e, rfl, rfl, rfl⟩
  | none =>
    cases h2 : w.FindObjects session 1 with
    | error e => exact Or.inr (Or.inl ⟨e, rfl, rfl, rfl, rfl⟩)
    | ok objs =>
      refine Or.inr (Or.inr ⟨objs, rfl, rfl, ?_⟩)
      cases h3 : w.FindObjectsFinal session with
      | some e => exact Or.inl ⟨Or.inl ⟨e, rfl⟩, rfl⟩
      | none =>
        cases objs with
        | nil => exact Or.inl ⟨Or.inr rfl, rfl⟩
        | cons obj0 rest =>
          cases h4 : w.DecryptInit session mechanism obj0 with
          | some e => exact Or.inr (Or.inl ⟨obj0, ⟨e, by simp [h4]⟩, by simp [h4]⟩)
          | none =>
            cases h5 : w.Decrypt session raw with
            | error e =>
              exact Or.inr (Or.inr ⟨obj0, Or.inl ⟨e, by simp [h4, h5]⟩, by simp [h4, h5]⟩)
            | ok decrypted =>
              exact Or.inr (Or.inr ⟨obj0, Or.inr (by simp [h4, h5]), by simp [h4, h5]⟩)

/-- Lines 209-244 make no cleanup call, and an error they return is one of key
lookup or decryption. -/
theorem runLoggedIn_summary (w : World) (session : SessionHandle) (raw : Bytes) :
    (runLoggedIn w session raw).trace.filter Call.isCleanup = [] ∧
    (∀ c ∈ (runLoggedIn w session raw).trace, c.isKeyUse = true) ∧
    (∀ e, (runLoggedIn w session raw).err = some e → e.isKeyOrDecryptFailure = true) := by
  rcases runLoggedIn_cases w session raw with
    ⟨e, _, he, ht⟩ | ⟨e, _, _, he, ht⟩ |
    ⟨objs, _, _, ⟨⟨e, he⟩ | he, ht⟩ | ⟨obj0, ⟨e, he⟩, ht⟩ | ⟨obj0, ⟨e, he⟩ | he, ht⟩⟩ <;>
  · rw [he, ht]
    simp [Call.isCleanup, Call.isKeyUse, RunError.isKeyOrDecryptFailure]

/-- The two ways lines 203-244 go: the login is refused, or it is accepted and the
rest runs with `Logout` at the end. -/
theorem runInSession_cases (w : World) (session : SessionHandle) (pin : String) (raw : Bytes) :
    (∃ e, w.Login session CKU_USER pin = some e ∧
      runInSession w session pin raw = ⟨some (.login e), [.Login session CKU_USER pin], []⟩) ∨
    (w.Login session CKU_USER pin = none ∧
      (runInSession w session pin raw).err = (runLoggedIn w session raw).err ∧
      (runInSession w session pin raw).trace =
        Call.Login session CKU_USER pin ::
          ((runLoggedIn w session raw).trace ++ [.Logout session])) := by
  unfold runInSession
  cases h : w.Login session CKU_USER pin with
  | some e => exact Or.inl ⟨e, rfl, rfl⟩
  | none => exact Or.inr ⟨rfl, rfl, rfl⟩

/-- The ways lines 156-244 go: they end before a session is asked for, with no
driver call; or `OpenSession` fails; or the session is opened and the rest runs
with `CloseSession` at the end. -/
theorem runSelected_cases (w : World) (slot : SlotID) (tokenInfo : TokenInfo) :
    ((runSelected w slot tokenInfo).trace = [] ∧
      ((runSelected w slot tokenInfo).err = none ∨
        (∃ e, (runSelected w slot tokenInfo).err = some (.loadProfile w.profile e)) ∨
        (∃ e, (runSelected w slot tokenInfo).err = some (.getPasswordData e)) ∨
        (∃ e, (runSelected w slot tokenInfo).err = some (.decodePasswordData e)) ∨
        (∃ e, (runSelected w slot tokenInfo).err = some (.readPIN e)))) ∨
    (∃ e, w.OpenSession slot CKF_SERIAL_SESSION = .error e ∧
      (runSelected w slot tokenInfo).err = some (.openSession e) ∧
      (runSelected w slot tokenInfo).trace = [.OpenSession slot CKF_SERIAL_SESSION]) ∨
    (∃ session pin raw, w.OpenSession slot CKF_SERIAL_SESSION = .ok session ∧
      w.ReadPassword = .ok pin ∧
      (runSelected w slot tokenInfo).err = (runInSession w session pin raw).err ∧
      (runSelected w slot tokenInfo).trace =
        Call.OpenSession slot CKF_SERIAL_SESSION ::
          ((runInSession w session pin raw).trace ++ [.CloseSession session])) := by
  cases h1 : w.LoadDefaultConfig w.profile with
  | error e => exact Or.inl (by simp [runSelected, h1])
  | ok cfg =>
    cases h2 : w.GetPasswordData cfg w.instanceID with
    | error e => exact Or.inl (by simp [runSelected, h1, h2])
    | ok passwordData =>
      cases passwordData with
      | none => exact Or.inl (by simp [runSelected, h1, h2])
      | some pd =>
        by_cases hpd : pd = ""
        · exact Or.inl (by simp [runSelected, h1, h2, hpd])
        · cases h3 : w.DecodeString pd with
          | error e => exact Or.inl (by simp [runSelected, h1, h2, hpd, h3])
          | ok raw =>
            cases h4 : w.ReadPassword with
            | error e => exact Or.inl (by simp [runSelected, h1, h2, hpd, h3, h4])
            | ok pin =>
              cases h5 : w.OpenSession slot CKF_SERIAL_SESSION with
              | error e =>
                exact Or.inr (Or.inl ⟨e, rfl, by simp [runSelected, h1, h2, hpd, h3, h4, h5]⟩)
              | ok session =>
                exact Or.inr (Or.inr ⟨session, pin, raw, rfl, rfl,
                  by simp [runSelected, h1, h2, hpd, h3, h4, h5, RunResult.after,
                    RunResult.thenDeferred]⟩)

@[simp] theorem after_err (r : RunResult) (t : List Call) (o : List Output) :
    (r.after t o).err = r.err := rfl

@[simp] theorem after_trace (r : RunResult) (t : List Call) (o : List Output) :
    (r.after t o).trace = t ++ r.trace := rfl

@[simp] theorem after_stdout (r : RunResult) (t : List Call) (o : List Output) :
    (r.after t o).stdout = o ++ r.stdout := rfl

@[simp] theorem thenDeferred_err (r : RunResult) (d : List Call) :
    (r.thenDeferred d).err = r.err := rfl

@[simp] theorem thenDeferred_trace (r : RunResult) (d : List Call) :
    (r.thenDeferred d).trace = r.trace ++ d := rfl

@[simp] theorem thenDeferred_stdout (r : RunResult) (d : List Call) :
    (r.thenDeferred d).stdout = r.stdout := rfl

/-- The only error of the library path is the unsupported platform. -/
theorem resolveLibPath_error (w : World) (e : RunError) (h : resolveLibPath w = .error e) :
    e = .platformNotSupported := by
  unfold resolveLibPath defaultPkcs11LibPath at h
  split at h
  · split at h
    · cases h
    · split at h
      · cases h
      · cases h; rfl
  · cases h

/-- The ways `run` starts: three failures before the driver is initialised, or
the body of lines 101-244 followed by `Finalize` and `Destroy`. -/
theorem run_cases (w : World) :
    run w = ⟨some .platformNotSupported, [], []⟩ ∨
    (∃ lib, run w = ⟨some (.loadLibrary lib), [.New lib], []⟩) ∨
    (∃ lib e, run w = ⟨some (.initializeFailed e), [.New lib, .Initialize], []⟩) ∨
    (∃ lib, resolveLibPath w = .ok lib ∧ w.New lib = true ∧ w.Initialize = none ∧
      run w = ((runInitialized w).thenDeferred [.Finalize, .Destroy]).after
        [.New lib, .Initialize] []) := by
  cases h1 : resolveLibPath w with
  | error e =>
    have he := resolveLibPath_error w e h1
    subst he
    exact Or.inl (by simp [run, h1])
  | ok lib =>
    cases h2 : w.New lib with
    | false => exact Or.inr (Or.inl ⟨lib, by simp [run, h1, h2]⟩)
    | true =>
      cases h3 : w.Initialize with
      | some e => exact Or.inr (Or.inr (Or.inl ⟨lib, e, by simp [run, h1, h2, h3]⟩))
      | none => exact Or.inr (Or.inr (Or.inr ⟨lib, rfl, h2, rfl, by simp [run, h1, h2, h3]⟩))

/-- A run that asks for the slot list has loaded and initialised the driver, and
ends with `Finalize` and `Destroy`. -/
theorem run_of_enumerated (w : World) (h : Call.GetSlotList true ∈ (run w).trace) :
    ∃ lib, resolveLibPath w = .ok lib ∧ w.New lib = true ∧ w.Initialize = none ∧
      run w = ((runInitialized w).thenDeferred [.Finalize, .Destroy]).after
        [.New lib, .Initialize] [] := by
  rcases run_cases w with hr | ⟨lib, hr⟩ | ⟨lib, e, hr⟩ | hr
  · rw [hr] at h; simp at h
  · rw [hr] at h; simp at h
  · rw [hr] at h; simp at h
  · exact hr

/-- The ways lines 101-244 go: enumeration fails, no slot, or the selection of
lines 111-154 decides. -/
theorem runInitialized_cases (w : World) :
    (∃ e, w.GetSlotList true = .error e ∧
      runInitialized w = ⟨some (.getSlotList e), [.GetSlotList true], []⟩) ∨
    (w.GetSlotList true = .ok [] ∧
      runInitialized w = ⟨some .noTokens, [.GetSlotList true], []⟩) ∨
    (∃ slots, w.GetSlotList true = .ok slots ∧ slots ≠ [] ∧
      ((∃ err, (selectToken w slots).1 = .failed err ∧
          runInitialized w =
            ⟨some err, .GetSlotList true :: (selectToken w slots).2.1,
              (selectToken w slots).2.2⟩) ∨
        ((selectToken w slots).1 = .listed ∧
          runInitialized w =
            ⟨none, .GetSlotList true :: (selectToken w slots).2.1,
              (selectToken w slots).2.2⟩) ∨
        (∃ slot tokenInfo, (selectToken w slots).1 = .selected slot tokenInfo ∧
          runInitialized w =
            (runSelected w slot tokenInfo).after
              (.GetSlotList true :: (selectToken w slots).2.1) (selectToken w slots).2.2))) := by
  cases h1 : w.GetSlotList true with
  | error e => exact Or.inl ⟨e, rfl, by simp [runInitialized, h1]⟩
  | ok slots =>
    cases slots with
    | nil => exact Or.inr (Or.inl ⟨rfl, by simp [runInitialized, h1]⟩)
    | cons s rest =>
      refine Or.inr (Or.inr ⟨s :: rest, rfl, by simp, ?_⟩)
      rcases hs : selectToken w (s :: rest) with ⟨sel, t, o⟩
      cases sel with
      | failed err => exact Or.inl ⟨err, rfl, by simp [runInitialized, h1, hs]⟩
      | listed => exact Or.inr (Or.inl ⟨rfl, by simp [runInitialized, h1, hs]⟩)
      | selected slot tokenInfo =>
        exact Or.inr (Or.inr ⟨slot, tokenInfo, rfl, by simp [runInitialized, h1, hs]⟩)

/-- With a requested serial, the selection is the first slot that reports it. -/
theorem selectToken_first (w : World) (slot : SlotID) (pre post : List SlotID)
    (hr : w.tokenSerial ≠ "") (h : reportedSerial w slot = some w.tokenSerial)
    (hpre : ∀ p ∈ pre, reportedSerial w p ≠ some w.tokenSerial) :
    ∃ tokenInfo, w.GetTokenInfo slot = .ok tokenInfo ∧
      TrimSpace tokenInfo.SerialNumber = w.tokenSerial ∧
      selectToken w (pre ++ slot :: post) =
        (.selected slot tokenInfo, (pre ++ [slot]).map Call.GetTokenInfo, []) := by
  obtain ⟨tokenInfo, hg, heq, hfind⟩ := findTokenBySerial_first w w.tokenSerial slot post h pre hpre
  exact ⟨tokenInfo, hg, heq, by simp [selectToken, hr, hfind]⟩

/-- With a requested serial that no slot reports, the selection fails after asking
every slot. -/
theorem selectToken_none (w : World) (slots : List SlotID)
    (hr : w.tokenSerial ≠ "") (h : ∀ s ∈ slots, reportedSerial w s ≠ some w.tokenSerial) :
    selectToken w slots =
      (.failed (.tokenNotFound w.tokenSerial), slots.map Call.GetTokenInfo, []) := by
  simp [selectToken, hr, findTokenBySerial_none w w.tokenSerial slots h]

/-- Without a requested serial, two slots or more are listed. -/
theorem selectToken_listed (w : World) (slots : List SlotID)
    (hr : w.tokenSerial = "") (hn : 2 ≤ slots.length) :
    selectToken w slots =
      (.listed, slots.map Call.GetTokenInfo,
        Output.println "Multiple tokens found. Please provide token serial number." ::
        Output.println "Available token serial numbers:" ::
        (slots.filterMap (reportedSerial w)).map Output.println) := by
  match slots, hn with
  | a :: b :: rest, _ =>
    simp [selectToken, hr, listTokenSerials_calls, listTokenSerials_lines]

/-- An error of the selection is the serial not found or the token info not read. -/
theorem selectToken_failed (w : World) (slots : List SlotID) (err : RunError)
    (h : (selectToken w slots).1 = .failed err) :
    err = .tokenNotFound w.tokenSerial ∨ ∃ e, err = .getTokenInfo e := by
  unfold selectToken at h
  split at h
  · split at h
    · cases h
    · cases h; exact Or.inl rfl
  · split at h
    · split at h
      · cases h; exact Or.inr ⟨_, rfl⟩
      · cases h
    · cases h

/-- Lines 203-244 never open a session. -/
theorem runInSession_openSession (w : World) (session : SessionHandle) (pin : String)
    (raw : Bytes) (s : SlotID) (f : Nat) :
    Call.OpenSession s f ∉ (runInSession w session pin raw).trace := by
  intro hmem
  rcases runInSession_cases w session pin raw with ⟨e, _, hr⟩ | ⟨_, _, ht⟩
  · rw [hr] at hmem; simp at hmem
  · rw [ht] at hmem
    simp only [List.mem_cons, List.mem_append, List.mem_nil_iff, or_false] at hmem
    rcases hmem with hmem | hmem | hmem
    · cases hmem
    · have := (runLoggedIn_summary w session raw).2.1 _ hmem
      simp [Call.isKeyUse] at this
    · cases hmem

/-- A session opened by lines 156-244 is on the selected slot, in serial mode. -/
theorem runSelected_openSession (w : World) (slot : SlotID) (tokenInfo : TokenInfo)
    (s : SlotID) (f : Nat) (hmem : Call.OpenSession s f ∈ (runSelected w slot tokenInfo).trace) :
    s = slot ∧ f = CKF_SERIAL_SESSION := by
  rcases runSelected_cases w slot tokenInfo with ⟨ht, _⟩ | ⟨e, _, _, ht⟩ |
    ⟨session, pin, raw, _, _, _, ht⟩
  · rw [ht] at hmem; simp at hmem
  · rw [ht] at hmem; simpa using hmem
  · rw [ht] at hmem
    simp only [List.mem_cons, List.mem_append, List.mem_nil_iff, or_false] at hmem
    rcases hmem with hmem | hmem | hmem
    · simpa using hmem
    · exact absurd hmem (runInSession_openSession w session pin raw s f)
    · cases hmem

/-- Lines 156-244 first print the trimmed serial of the selected token. -/
theorem runSelected_banner (w : World) (slot : SlotID) (tokenInfo : TokenInfo) :
    (runSelected w slot tokenInfo).stdout.head? =
      some (.print ("Using token serial number: " ++ TrimSpace tokenInfo.SerialNumber ++ "\n")) := by
  unfold runSelected
  repeat' split
  all_goals simp

/-- In a run that selected a slot, a session, if one is opened, is on that slot. -/
theorem openSession_of_selected (w : World) (slot : SlotID) (tokenInfo : TokenInfo)
    (lib : String) (t : List Call) (ht : ∀ c ∈ t, ∃ a, c = Call.GetTokenInfo a)
    (s : SlotID) (f : Nat)
    (hmem : Call.OpenSession s f ∈
      ((((runSelected w slot tokenInfo).after (.GetSlotList true :: t) []).thenDeferred
        [.Finalize, .Destroy]).after [.New lib, .Initialize] []).trace) :
    s = slot := by
  simp only [after_trace, thenDeferred_trace] at hmem
  rcases List.mem_append.1 hmem with h1 | h1
  · simp at h1
  · rcases List.mem_append.1 h1 with h2 | h2
    · rcases List.mem_append.1 h2 with h3 | h3
      · rcases List.mem_cons.1 h3 with h4 | h4
        · cases h4
        · obtain ⟨a, ha⟩ := ht _ h4
          cases ha
      · exact (runSelected_openSession w slot tokenInfo s f h3).1
    · simp at h2

/-! ## Token selection (C3 to C7) -/

/-- C6: in every run that enumerates the slots and gets none, `run` fails with the
no-tokens error, and the driver calls are `New`, `Initialize`, `GetSlotList`,
`Finalize`, `Destroy`: no `GetTokenInfo` and no call on a session, whatever the
requested serial. -/
theorem run_no_tokens (w : World) (h : Call.GetSlotList true ∈ (run w).trace)
    (hs : w.GetSlotList true = .ok []) :
    (run w).err = some .noTokens ∧
    (∃ lib, (run w).trace =
      [.New lib, .Initialize, .GetSlotList true, .Finalize, .Destroy]) ∧
    (∀ c ∈ (run w).trace, (∀ s, c ≠ Call.GetTokenInfo s) ∧ c.isSessionUse = false) := by
  obtain ⟨lib, _, _, _, hrun⟩ := run_of_enumerated w h
  have hinit : runInitialized w = ⟨some .noTokens, [.GetSlotList true], []⟩ := by
    simp [runInitialized, hs]
  rw [hrun, hinit]
  refine ⟨rfl, ⟨lib, rfl⟩, ?_⟩
  intro c hc
  simp only [after_trace, thenDeferred_trace, List.cons_append, List.nil_append, List.mem_cons,
    List.mem_nil_iff, or_false] at hc
  rcases hc with rfl | rfl | rfl | rfl | rfl <;> simp [Call.isSessionUse]

theorem run_no_tokens_witness :
    Call.GetSlotList true ∈ (run noTokenWorld).trace ∧
      (run noTokenWorld).err = some .noTokens :=
  ⟨by decide, (run_no_tokens noTokenWorld (by decide) rfl).1⟩

/-- C5: with a non-empty requested serial and a non-empty enumeration in which no
slot reports that serial, `run` fails with the serial-not-found error, whose
message quotes the requested serial; every slot was asked for its token info and
no session was opened. -/
theorem run_serial_not_found (w : World) (slots : List SlotID)
    (h : Call.GetSlotList true ∈ (run w).trace) (hs : w.GetSlotList true = .ok slots)
    (hne : slots ≠ []) (hr : w.tokenSerial ≠ "")
    (hno : ∀ s ∈ slots, reportedSerial w s ≠ some w.tokenSerial) :
    (run w).err = some (.tokenNotFound w.tokenSerial) ∧
    (∀ quote : String → String, ∀ e, (run w).err = some e →
      e.message quote = "token with serial " ++ quote w.tokenSerial ++ " not found") ∧
    (∃ lib, (run w).trace =
      [.New lib, .Initialize, .GetSlotList true] ++ slots.map Call.GetTokenInfo ++
        [.Finalize, .Destroy]) ∧
    (∀ c ∈ (run w).trace, c.isSessionUse = false) := by
  obtain ⟨lib, _, _, _, hrun⟩ := run_of_enumerated w h
  have hinit : runInitialized w =
      ⟨some (.tokenNotFound w.tokenSerial), .GetSlotList true :: slots.map Call.GetTokenInfo,
        []⟩ := by
    simp [runInitialized, hs, hne, selectToken_none w slots hr hno]
  rw [hrun, hinit]
  refine ⟨rfl, ?_, ⟨lib, by simp⟩, ?_⟩
  · intro quote e he
    simp only [after_err, thenDeferred_err, Option.some.injEq] at he
    subst he
    rfl
  · intro c hc
    simp only [after_trace, thenDeferred_trace, List.cons_append, List.nil_append, List.mem_cons,
      List.mem_append, List.mem_map, List.mem_nil_iff, or_false] at hc
    rcases hc with rfl | rfl | rfl | ⟨s, _, rfl⟩ | rfl | rfl <;> simp [Call.isSessionUse]

theorem run_serial_not_found_witness :
    Call.GetSlotList true ∈ (run unknownSerialWorld).trace ∧
      (run unknownSerialWorld).err = some (.tokenNotFound "XYZ789") :=
  ⟨by decide,
    (run_serial_not_found unknownSerialWorld [0, 1] (by decide) rfl (by decide) (by decide)
      (by decide)).1⟩

/-- C3, as stated, fails: two slots are enumerated with no requested serial, the
token info of the second cannot be read, and one serial is printed, not two. -/
theorem listing_skips_unreadable_slot :
    unreadableSecondWorld.tokenSerial = "" ∧
    unreadableSecondWorld.GetSlotList true = .ok [0, 5] ∧
    (run unreadableSecondWorld).err = none ∧
    (run unreadableSecondWorld).stdout =
      [.println "Multiple tokens found. Please provide token serial number.",
        .println "Available token serial numbers:", .println "12345678"] :=
  ⟨rfl, rfl, by decide, by decide⟩

/-- C3, amended: with no requested serial and two slots or more enumerated, `run`
returns without error after printing, below two heading lines, the trimmed serial
of every slot whose token info is read, in the order of the enumeration; these are
exactly as many serials as slots when every token info is read.  Every slot is
asked for its token info and no call is made on a session. -/
theorem run_lists_reported_serials (w : World) (slots : List SlotID)
    (h : Call.GetSlotList true ∈ (run w).trace) (hs : w.GetSlotList true = .ok slots)
    (hn : 2 ≤ slots.length) (hr : w.tokenSerial = "") :
    (run w).err = none ∧
    (run w).stdout =
      Output.println "Multiple tokens found. Please provide token serial number." ::
      Output.println "Available token serial numbers:" ::
      (slots.filterMap (reportedSerial w)).map Output.println ∧
    ((∀ s ∈ slots, ∃ tokenInfo, w.GetTokenInfo s = .ok tokenInfo) →
      (slots.filterMap (reportedSerial w)).map some = slots.map (reportedSerial w) ∧
      (slots.filterMap (reportedSerial w)).length = slots.length) ∧
    (∃ lib, (run w).trace =
      [.New lib, .Initialize, .GetSlotList true] ++ slots.map Call.GetTokenInfo ++
        [.Finalize, .Destroy]) ∧
    (∀ c ∈ (run w).trace, c.isSessionUse = false) := by
  obtain ⟨lib, _, _, _, hrun⟩ := run_of_enumerated w h
  have hne : slots ≠ [] := by
    intro hnil
    rw [hnil] at hn
    simp at hn
  have hinit : runInitialized w =
      ⟨none, .GetSlotList true :: slots.map Call.GetTokenInfo,
        Output.println "Multiple tokens found. Please provide token serial number." ::
        Output.println "Available token serial numbers:" ::
        (slots.filterMap (reportedSerial w)).map Output.println⟩ := by
    simp [runInitialized, hs, hne, selectToken_listed w slots hr hn]
  rw [hrun, hinit]
  refine ⟨rfl, by simp, ?_, ⟨lib, by simp⟩, ?_⟩
  · intro hall
    have hmap : (slots.filterMap (reportedSerial w)).map some = slots.map (reportedSerial w) := by
      clear hs hn hne hinit hrun h
      induction slots with
      | nil => rfl
      | cons a rest ih =>
        obtain ⟨tokenInfo, hg⟩ := hall a (List.mem_cons_self a rest)
        have hrest := ih (fun s hmem => hall s (List.mem_cons_of_mem a hmem))
        simp [List.filterMap_cons, reportedSerial_ok w a tokenInfo hg, hrest]
    refine ⟨hmap, ?_⟩
    have hlen := congrArg List.length hmap
    simpa using hlen
  · intro c hc
    simp only [after_trace, thenDeferred_trace, List.cons_append, List.nil_append, List.mem_cons,
      List.mem_append, List.mem_map, List.mem_nil_iff, or_false] at hc
    rcases hc with rfl | rfl | rfl | ⟨s, _, rfl⟩ | rfl | rfl <;> simp [Call.isSessionUse]

theorem run_lists_reported_serials_witness :
    Call.GetSlotList true ∈ (run twoTokenWorld).trace ∧
      (run twoTokenWorld).stdout =
        [.println "Multiple tokens found. Please provide token serial number.",
          .println "Available token serial numbers:", .println "12345678",
          .println "ABC123"] :=
  ⟨by decide,
    (run_lists_reported_serials twoTokenWorld [0, 1] (by decide) rfl (by decide) rfl).2.1⟩

/-- C4: with a non-empty requested serial, the token `run` selects is the first
slot of the enumeration whose reported serial, trimmed, is the requested one: the
slots before it are asked and passed over, the rest of the run is on that slot and
its token info, and a session, if one is opened, is on that slot.  The padded
serial `ABC123    ` trims to `ABC123`. -/
theorem run_selects_first_matching_serial (w : World) (slot : SlotID)
    (pre post : List SlotID) (h : Call.GetSlotList true ∈ (run w).trace)
    (hs : w.GetSlotList true = .ok (pre ++ slot :: post)) (hr : w.tokenSerial ≠ "")
    (hm : reportedSerial w slot = some w.tokenSerial)
    (hpre : ∀ p ∈ pre, reportedSerial w p ≠ some w.tokenSerial) :
    (∃ tokenInfo lib, w.GetTokenInfo slot = .ok tokenInfo ∧
      TrimSpace tokenInfo.SerialNumber = w.tokenSerial ∧
      selectToken w (pre ++ slot :: post) =
        (.selected slot tokenInfo, (pre ++ [slot]).map Call.GetTokenInfo, []) ∧
      run w =
        (((runSelected w slot tokenInfo).after
          (.GetSlotList true :: (pre ++ [slot]).map Call.GetTokenInfo) []).thenDeferred
          [.Finalize, .Destroy]).after [.New lib, .Initialize] []) ∧
    (∀ s f, Call.OpenSession s f ∈ (run w).trace → s = slot) ∧
    (run w).stdout.head? =
      some (.print ("Using token serial number: " ++ w.tokenSerial ++ "\n")) ∧
    TrimSpace "ABC123    " = "ABC123" := by
  obtain ⟨lib, _, _, _, hrun⟩ := run_of_enumerated w h
  obtain ⟨tokenInfo, hg, htrim, hsel⟩ := selectToken_first w slot pre post hr hm hpre
  have hinit : runInitialized w =
      (runSelected w slot tokenInfo).after
        (.GetSlotList true :: (pre ++ [slot]).map Call.GetTokenInfo) [] := by
    simp [runInitialized, hs, hsel]
  rw [hinit] at hrun
  refine ⟨⟨tokenInfo, lib, hg, htrim, hsel, hrun⟩, ?_, ?_, by decide⟩
  · intro s f hmem
    rw [hrun] at hmem
    exact openSession_of_selected w slot tokenInfo lib _
      (fun c hc => by
        obtain ⟨a, _, ha⟩ := List.mem_map.1 hc
        exact ⟨a, ha.symm⟩) s f hmem
  · rw [hrun]
    have hb := runSelected_banner w slot tokenInfo
    rw [htrim] at hb
    simpa using hb

theorem run_selects_first_matching_serial_witness :
    requestedWorld.GetTokenInfo 1 = .ok ⟨"PIV_II", "piv_II", "PKCS#15 emulated", "ABC123    "⟩ ∧
      requestedWorld.tokenSerial = "ABC123" ∧
      ∀ s f, Call.OpenSession s f ∈ (run requestedWorld).trace → s = 1 :=
  ⟨rfl, rfl,
    (run_selects_first_matching_serial requestedWorld 1 [0] [] (by decide) rfl (by decide)
      (by decide) (by decide)).2.1⟩

/-- C7, as stated, fails: one slot is enumerated with no requested serial, its
token info cannot be read, and `run` fails with the token-info error instead of
selecting the slot; no session is opened. -/
theorem single_token_selection_can_fail :
    unreadableTokenWorld.tokenSerial = "" ∧
    unreadableTokenWorld.GetSlotList true = .ok [0] ∧
    (run unreadableTokenWorld).err = some (.getTokenInfo "CKR_DEVICE_ERROR") ∧
    (run unreadableTokenWorld).trace =
      [.New "/usr/lib/x86_64-linux-gnu/opensc-pkcs11.so", .Initialize, .GetSlotList true,
        .GetTokenInfo 0, .Finalize, .Destroy] :=
  ⟨rfl, rfl, by decide, by decide⟩

/-- C7, amended: with no requested serial and exactly one slot enumerated, `run`
asks that slot for its token info.  If the info is read, the slot is selected
whatever its serial is: the rest of the run is on that slot, its trimmed serial is
printed, and a session, if one is opened, is on that slot.  If the info is not
read, `run` fails with the token-info error and opens no session. -/
theorem run_single_token (w : World) (slot : SlotID)
    (h : Call.GetSlotList true ∈ (run w).trace) (hs : w.GetSlotList true = .ok [slot])
    (hr : w.tokenSerial = "") :
    (∀ tokenInfo, w.GetTokenInfo slot = .ok tokenInfo →
      selectToken w [slot] = (.selected slot tokenInfo, [.GetTokenInfo slot], []) ∧
      (∃ lib, run w =
        (((runSelected w slot tokenInfo).after
          [.GetSlotList true, .GetTokenInfo slot] []).thenDeferred
          [.Finalize, .Destroy]).after [.New lib, .Initialize] []) ∧
      (∀ s f, Call.OpenSession s f ∈ (run w).trace → s = slot) ∧
      (run w).stdout.head? =
        some (.print ("Using token serial number: " ++
          TrimSpace tokenInfo.SerialNumber ++ "\n"))) ∧
    (∀ e, w.GetTokenInfo slot = .error e →
      (run w).err = some (.getTokenInfo e) ∧
      ∃ lib, (run w).trace =
        [.New lib, .Initialize, .GetSlotList true, .GetTokenInfo slot, .Finalize, .Destroy]) := by
  obtain ⟨lib, _, _, _, hrun⟩ := run_of_enumerated w h
  constructor
  · intro tokenInfo hg
    have hsel : selectToken w [slot] = (.selected slot tokenInfo, [.GetTokenInfo slot], []) := by
      simp [selectToken, hr, hg]
    have hinit : runInitialized w =
        (runSelected w slot tokenInfo).after [.GetSlotList true, .GetTokenInfo slot] [] := by
      simp [runInitialized, hs, hsel]
    rw [hinit] at hrun
    refine ⟨hsel, ⟨lib, hrun⟩, ?_, ?_⟩
    · intro s f hmem
      rw [hrun] at hmem
      exact openSession_of_selected w slot tokenInfo lib [.GetTokenInfo slot]
        (fun c hc => ⟨slot, by simpa using hc⟩) s f hmem
    · rw [hrun]
      simpa using runSelected_banner w slot tokenInfo
  · intro e hg
    have hsel : selectToken w [slot] = (.failed (.getTokenInfo e), [.GetTokenInfo slot], []) := by
      simp [selectToken, hr, hg]
    have hinit : runInitialized w =
        ⟨some (.getTokenInfo e), [.GetSlotList true, .GetTokenInfo slot], []⟩ := by
      simp [runInitialized, hs, hsel]
    rw [hrun, hinit]
    exact ⟨rfl, lib, rfl⟩

theorem run_single_token_witness :
    Call.GetSlotList true ∈ (run scenario).trace ∧
      selectToken scenario [0] =
        (.selected 0 ⟨"PIV_II", "piv_II", "PKCS#15 emulated", "12345678        "⟩,
          [.GetTokenInfo 0], []) :=
  ⟨by decide, ((run_single_token scenario 0 (by decide) rfl rfl).1 _ rfl).1⟩

/-- A selection that selects a slot writes nothing. -/
theorem selectToken_selected_stdout (w : World) (slots : List SlotID) (slot : SlotID)
    (tokenInfo : TokenInfo) (h : (selectToken w slots).1 = .selected slot tokenInfo) :
    (selectToken w slots).2.2 = [] := by
  by_cases hr : w.tokenSerial ≠ ""
  · rcases hf : findTokenBySerial w w.tokenSerial slots with ⟨_ | ⟨s, i⟩, t⟩ <;>
      simp [selectToken, hr, hf] at h ⊢
  · match slots with
    | [] => simp [selectToken, hr] at h
    | [a] => cases hg : w.GetTokenInfo a <;> simp [selectToken, hr, hg] at h ⊢
    | a :: b :: rest => simp [selectToken, hr] at h

/-! ## The cloud collaborator (C2) and the whole workflow (C10) -/

/-- C2, as stated, fails: the password blob is empty and `run` ends in the
not-ready outcome, yet the driver was loaded, initialised, enumerated and asked for
the token info before the blob was fetched: the trace is not empty. -/
theorem not_ready_after_driver_calls :
    notReadyWorld.GetPasswordData 0 notReadyWorld.instanceID = .ok (some "") ∧
    (run notReadyWorld).err = none ∧
    (run notReadyWorld).trace =
      [.New "/usr/lib/x86_64-linux-gnu/opensc-pkcs11.so", .Initialize, .GetSlotList true,
        .GetTokenInfo 0, .Finalize, .Destroy] ∧
    (run notReadyWorld).trace ≠ [] :=
  ⟨rfl, by decide, by decide, by decide⟩

/-- C2, amended: in every run that enumerated the slots, selected a token and loaded
the AWS configuration, if the password data of the instance is absent or empty then
`run` returns no error after printing the serial in use and the not-ready notice;
the driver calls are `New`, `Initialize`, `GetSlotList`, the `GetTokenInfo` calls of
the selection, `Finalize` and `Destroy`, so no call is made on a session. -/
theorem run_not_ready (w : World) (slots : List SlotID) (slot : SlotID)
    (tokenInfo : TokenInfo) (cfg : AwsConfig) (passwordData : Option String)
    (h : Call.GetSlotList true ∈ (run w).trace) (hs : w.GetSlotList true = .ok slots)
    (hsel : (selectToken w slots).1 = .selected slot tokenInfo)
    (hcfg : w.LoadDefaultConfig w.profile = .ok cfg)
    (hpd : w.GetPasswordData cfg w.instanceID = .ok passwordData)
    (hempty : passwordData = none ∨ passwordData = some "") :
    (run w).err = none ∧
    (run w).stdout =
      [.print ("Using token serial number: " ++ TrimSpace tokenInfo.SerialNumber ++ "\n"),
        .println "Instance is not ready yet."] ∧
    (∃ lib, (run w).trace =
      [.New lib, .Initialize, .GetSlotList true] ++ (selectToken w slots).2.1 ++
        [.Finalize, .Destroy]) ∧
    (∀ c ∈ (run w).trace, c.isSessionUse = false) := by
  obtain ⟨lib, _, _, _, hrun⟩ := run_of_enumerated w h
  have hne : slots ≠ [] := by
    intro hnil
    subst hnil
    by_cases hr : w.tokenSerial ≠ "" <;> simp [selectToken, hr, findTokenBySerial] at hsel
  have hout := selectToken_selected_stdout w slots slot tokenInfo hsel
  have hsel3 : selectToken w slots = (.selected slot tokenInfo, (selectToken w slots).2.1, []) := by
    rw [← hsel, ← hout]
  have hselected : runSelected w slot tokenInfo =
      ⟨none, [],
        [.print ("Using token serial number: " ++ TrimSpace tokenInfo.SerialNumber ++ "\n"),
          .println "Instance is not ready yet."]⟩ := by
    rcases hempty with hp | hp <;> simp [runSelected, hcfg, hpd, hp]
  have hinit : runInitialized w =
      (runSelected w slot tokenInfo).after (.GetSlotList true :: (selectToken w slots).2.1) [] := by
    unfold runInitialized
    rw [hs]
    simp only [List.length_eq_zero, hne, if_false]
    rw [hsel3]
  rw [hrun, hinit, hselected]
  refine ⟨rfl, rfl, ⟨lib, by simp [RunResult.after, RunResult.thenDeferred]⟩, ?_⟩
  intro c hc
  simp only [after_trace, thenDeferred_trace, List.cons_append, List.nil_append, List.mem_cons,
    List.mem_append, List.mem_nil_iff, or_false, List.append_nil] at hc
  rcases hc with rfl | rfl | rfl | hc | rfl | rfl
  · rfl
  · rfl
  · rfl
  · obtain ⟨a, rfl⟩ := selectToken_calls w slots c hc
    rfl
  · rfl
  · rfl

theorem run_not_ready_witness :
    Call.GetSlotList true ∈ (run notReadyWorld).trace ∧
      (run notReadyWorld).stdout =
        [.print "Using token serial number: 12345678\n",
          .println "Instance is not ready yet."] :=
  ⟨by decide,
    (run_not_ready notReadyWorld [0] 0
      ⟨"PIV_II", "piv_II", "PKCS#15 emulated", "12345678        "⟩ 0 (some "")
      (by decide) rfl (by decide) rfl rfl (Or.inr rfl)).2.1⟩

/-- C10: in a run that enumerated exactly one slot, where the token info is read
(and its serial is the requested one, when one is requested), the password blob is
present and decodes, the PIN is read and accepted on the opened session, and the
search for the private key with id `0x01` finds an object, `run` returns no error
and prints exactly the bytes that `Decrypt` returns for the decoded blob under the
first object found, with mechanism RSA-PKCS and no parameter; the fifteen driver
calls are made in the order of the workflow, cleanup last. -/
theorem run_decrypts (w : World) (slot : SlotID) (tokenInfo : TokenInfo) (cfg : AwsConfig)
    (blob pin : String) (raw plaintext : Bytes) (session : SessionHandle)
    (obj0 : ObjectHandle) (more : List ObjectHandle)
    (h : Call.GetSlotList true ∈ (run w).trace) (hs : w.GetSlotList true = .ok [slot])
    (hg : w.GetTokenInfo slot = .ok tokenInfo)
    (hr : w.tokenSerial = "" ∨ TrimSpace tokenInfo.SerialNumber = w.tokenSerial)
    (hcfg : w.LoadDefaultConfig w.profile = .ok cfg)
    (hpd : w.GetPasswordData cfg w.instanceID = .ok (some blob)) (hblob : blob ≠ "")
    (hdecode : w.DecodeString blob = .ok raw) (hpin : w.ReadPassword = .ok pin)
    (hopen : w.OpenSession slot CKF_SERIAL_SESSION = .ok session)
    (hlogin : w.Login session CKU_USER pin = none)
    (hfind1 : w.FindObjectsInit session template = none)
    (hfind2 : w.FindObjects session 1 = .ok (obj0 :: more))
    (hfind3 : w.FindObjectsFinal session = none)
    (hinit : w.DecryptInit session mechanism obj0 = none)
    (hdecrypt : w.Decrypt session raw = .ok plaintext) :
    (run w).err = none ∧
    (run w).stdout =
      [.print ("Using token serial number: " ++ TrimSpace tokenInfo.SerialNumber ++ "\n"),
        .print "PIN: ", .println "", .printlnBytes plaintext] ∧
    ∃ lib, (run w).trace =
      [.New lib, .Initialize, .GetSlotList true, .GetTokenInfo slot,
        .OpenSession slot CKF_SERIAL_SESSION, .Login session CKU_USER pin,
        .FindObjectsInit session template, .FindObjects session 1, .FindObjectsFinal session,
        .DecryptInit session mechanism obj0, .Decrypt session raw,
        .Logout session, .CloseSession session, .Finalize, .Destroy] := by
  obtain ⟨lib, _, _, _, hrun⟩ := run_of_enumerated w h
  have hsel : selectToken w [slot] = (.selected slot tokenInfo, [.GetTokenInfo slot], []) := by
    by_cases hne : w.tokenSerial ≠ ""
    · rcases hr with hr | hr
      · exact absurd hr hne
      · simp [selectToken, hne, findTokenBySerial, hg, hr]
    · simp [selectToken, hne, hg]
  have hbody : runInitialized w =
      ⟨none,
        [.GetSlotList true, .GetTokenInfo slot,
          .OpenSession slot CKF_SERIAL_SESSION, .Login session CKU_USER pin,
          .FindObjectsInit session template, .FindObjects session 1, .FindObjectsFinal session,
          .DecryptInit session mechanism obj0, .Decrypt session raw,
          .Logout session, .CloseSession session],
        [.print ("Using token serial number: " ++ TrimSpace tokenInfo.SerialNumber ++ "\n"),
          .print "PIN: ", .println "", .printlnBytes plaintext]⟩ := by
    simp [runInitialized, hs, hsel, runSelected, hcfg, hpd, hblob, hdecode, hpin, hopen,
      runInSession, hlogin, runLoggedIn, hfind1, hfind2, hfind3, hinit, hdecrypt,
      RunResult.after, RunResult.thenDeferred]
  rw [hrun, hbody]
  exact ⟨rfl, rfl, lib, rfl⟩

theorem run_decrypts_witness :
    (run scenario).err = none ∧
      (run scenario).stdout =
        [.print ("Using token serial number: " ++ TrimSpace "12345678        " ++ "\n"),
          .print "PIN: ", .println "", .printlnBytes ("P@ssw0rd!".data.map Char.toNat)] :=
  ⟨(run_decrypts scenario 0 ⟨"PIV_II", "piv_II", "PKCS#15 emulated", "12345678        "⟩ 0
      "AQID" "123456" [1, 2, 3] passwordBytes 100 7 [] (by decide) rfl rfl (Or.inl rfl) rfl rfl
      (by decide) rfl rfl rfl rfl rfl rfl rfl rfl rfl).1,
    (run_decrypts scenario 0 ⟨"PIV_II", "piv_II", "PKCS#15 emulated", "12345678        "⟩ 0
      "AQID" "123456" [1, 2, 3] passwordBytes 100 7 [] (by decide) rfl rfl (Or.inl rfl) rfl rfl
      (by decide) rfl rfl rfl rfl rfl rfl rfl rfl rfl).2.1⟩

/-! ## Cleanup (C1, C8) -/

/-- The selection makes no cleanup call. -/
theorem selectToken_cleanup (w : World) (slots : List SlotID) :
    (selectToken w slots).2.1.filter Call.isCleanup = [] := by
  rw [List.filter_eq_nil_iff]
  intro c hc
  obtain ⟨a, rfl⟩ := selectToken_calls w slots c hc
  simp [Call.isCleanup]

/-- Cleanup calls of lines 203-244 when they return an error. -/
theorem runInSession_cleanup (w : World) (session : SessionHandle) (pin : String)
    (raw : Bytes) (e : RunError) (h : (runInSession w session pin raw).err = some e) :
    (e.isKeyOrDecryptFailure = true ∧
      (runInSession w session pin raw).trace.filter Call.isCleanup = [.Logout session]) ∨
    ((∃ x, e = .login x) ∧
      (runInSession w session pin raw).trace.filter Call.isCleanup = []) := by
  rcases runInSession_cases w session pin raw with ⟨x, _, hr⟩ | ⟨_, he, ht⟩
  · rw [hr] at h ⊢
    cases h
    exact Or.inr ⟨⟨x, rfl⟩, by simp [Call.isCleanup]⟩
  · rw [he] at h
    refine Or.inl ⟨(runLoggedIn_summary w session raw).2.2 e h, ?_⟩
    rw [ht]
    simp [List.filter_cons, List.filter_append, (runLoggedIn_summary w session raw).1,
      Call.isCleanup]

/-- Cleanup calls of lines 156-244 when they return an error. -/
theorem runSelected_cleanup (w : World) (slot : SlotID) (tokenInfo : TokenInfo)
    (e : RunError) (h : (runSelected w slot tokenInfo).err = some e) :
    CleanupFor e ((runSelected w slot tokenInfo).trace.filter Call.isCleanup) [] := by
  rcases runSelected_cases w slot tokenInfo with
    ⟨ht, he | ⟨x, he⟩ | ⟨x, he⟩ | ⟨x, he⟩ | ⟨x, he⟩⟩ | ⟨x, _, he, ht⟩ |
    ⟨session, pin, raw, _, _, he, ht⟩
  · rw [he] at h; cases h
  · rw [he] at h; cases h
    exact Or.inr (Or.inr ⟨rfl, by simp, by simp [ht]⟩)
  · rw [he] at h; cases h
    exact Or.inr (Or.inr ⟨rfl, by simp, by simp [ht]⟩)
  · rw [he] at h; cases h
    exact Or.inr (Or.inr ⟨rfl, by simp, by simp [ht]⟩)
  · rw [he] at h; cases h
    exact Or.inr (Or.inr ⟨rfl, by simp, by simp [ht]⟩)
  · rw [he] at h; cases h
    exact Or.inr (Or.inr ⟨rfl, by simp, by simp [ht, Call.isCleanup]⟩)
  · rw [he] at h
    rcases runInSession_cleanup w session pin raw e h with ⟨hk, hf⟩ | ⟨hl, hf⟩
    · exact Or.inl ⟨hk, session, by
        rw [ht]; simp [List.filter_cons, List.filter_append, hf, Call.isCleanup]⟩
    · exact Or.inr (Or.inl ⟨hl, session, by
        rw [ht]; simp [List.filter_cons, List.filter_append, hf, Call.isCleanup]⟩)

/-- Cleanup calls of lines 101-244 when they return an error. -/
theorem runInitialized_cleanup (w : World) (e : RunError)
    (h : (runInitialized w).err = some e) :
    CleanupFor e ((runInitialized w).trace.filter Call.isCleanup) [] := by
  rcases runInitialized_cases w with ⟨x, _, hr⟩ | ⟨_, hr⟩ |
    ⟨slots, _, _, ⟨err, hsel, hr⟩ | ⟨_, hr⟩ | ⟨slot, tokenInfo, _, hr⟩⟩
  · rw [hr] at h ⊢; cases h
    exact Or.inr (Or.inr ⟨rfl, by simp, by simp [Call.isCleanup]⟩)
  · rw [hr] at h ⊢; cases h
    exact Or.inr (Or.inr ⟨rfl, by simp, by simp [Call.isCleanup]⟩)
  · rw [hr] at h ⊢; cases h
    have hclean : (Call.GetSlotList true :: (selectToken w slots).2.1).filter Call.isCleanup
        = [] := by
      simp [List.filter_cons, selectToken_cleanup w slots, Call.isCleanup]
    rcases selectToken_failed w slots e hsel with rfl | ⟨x, rfl⟩
    · exact Or.inr (Or.inr ⟨rfl, by simp, hclean⟩)
    · exact Or.inr (Or.inr ⟨rfl, by simp, hclean⟩)
  · rw [hr] at h; cases h
  · rw [hr] at h ⊢
    simp only [after_err, after_trace] at h ⊢
    have hclean : ((Call.GetSlotList true :: (selectToken w slots).2.1) ++
        (runSelected w slot tokenInfo).trace).filter Call.isCleanup =
        (runSelected w slot tokenInfo).trace.filter Call.isCleanup := by
      simp [List.filter_cons, List.filter_append, selectToken_cleanup w slots, Call.isCleanup]
    rw [hclean]
    exact runSelected_cleanup w slot tokenInfo e h

/-- C1, as stated, fails: the driver is initialised and the login (step 5) is
refused; `CloseSession` and `Finalize` are called but `Logout` is not. -/
theorem refused_login_has_no_logout :
    Call.Initialize ∈ (run wrongPinWorld).trace ∧
    (run wrongPinWorld).err = some (.login "CKR_PIN_INCORRECT") ∧
    (run wrongPinWorld).trace.filter Call.isCleanup = [.CloseSession 100, .Finalize] ∧
    Call.Logout 100 ∉ (run wrongPinWorld).trace := by
  decide

/-- C1, amended: when `run` fails at key lookup or decryption, its cleanup calls
are `Logout`, `CloseSession` and `Finalize`, each once, in that order, on one
session; when it fails at the login, they are `CloseSession` then `Finalize`, with
no `Logout`; when it fails at reading the PIN, which comes before the session is
opened, `Finalize` is the only one. -/
theorem run_cleanup_by_failed_step (w : World) (e : RunError) (h : (run w).err = some e) :
    (e.isKeyOrDecryptFailure = true → ∃ session,
      (run w).trace.filter Call.isCleanup =
        [.Logout session, .CloseSession session, .Finalize]) ∧
    (∀ x, e = .login x → ∃ session,
      (run w).trace.filter Call.isCleanup = [.CloseSession session, .Finalize]) ∧
    (∀ x, e = .readPIN x → (run w).trace.filter Call.isCleanup = [.Finalize]) := by
  rcases run_cases w with hr | ⟨lib, hr⟩ | ⟨lib, x, hr⟩ | ⟨lib, _, _, _, hr⟩
  · rw [hr] at h; cases h; simp [RunError.isKeyOrDecryptFailure]
  · rw [hr] at h; cases h; simp [RunError.isKeyOrDecryptFailure]
  · rw [hr] at h; cases h; simp [RunError.isKeyOrDecryptFailure]
  · rw [hr] at h ⊢
    simp only [after_err, thenDeferred_err, after_trace, thenDeferred_trace] at h ⊢
    have hclean : ([Call.New lib, Call.Initialize] ++
        ((runInitialized w).trace ++ [Call.Finalize, Call.Destroy])).filter Call.isCleanup =
        (runInitialized w).trace.filter Call.isCleanup ++ [.Finalize] := by
      simp [List.filter_cons, List.filter_append, Call.isCleanup]
    rw [hclean]
    rcases runInitialized_cleanup w e h with ⟨hk, session, hf⟩ | ⟨⟨y, hy⟩, session, hf⟩ |
      ⟨hk, hl, hf⟩
    · rw [hf]
      refine ⟨fun _ => ⟨session, rfl⟩, ?_, ?_⟩
      · intro x hx; subst hx; simp [RunError.isKeyOrDecryptFailure] at hk
      · intro x hx; subst hx; simp [RunError.isKeyOrDecryptFailure] at hk
    · rw [hf]
      subst hy
      refine ⟨?_, fun _ _ => ⟨session, rfl⟩, ?_⟩
      · intro hk; simp [RunError.isKeyOrDecryptFailure] at hk
      · intro x hx; cases hx
    · rw [hf]
      refine ⟨?_, ?_, fun _ _ => rfl⟩
      · intro hk'; rw [hk] at hk'; cases hk'
      · intro x hx; exact absurd hx (hl x)

theorem run_cleanup_by_failed_step_witness :
    (run noKeyWorld).err = some .keyNotFound ∧
      ∃ session, (run noKeyWorld).trace.filter Call.isCleanup =
        [.Logout session, .CloseSession session, .Finalize] :=
  ⟨by decide, (run_cleanup_by_failed_step noKeyWorld .keyNotFound (by decide)).1 rfl⟩

/-- A login call of lines 203-244 is the one of line 204. -/
theorem runInSession_login (w : World) (session : SessionHandle) (pin : String)
    (raw : Bytes) (s : SessionHandle) (u : Nat) (p : String)
    (hmem : Call.Login s u p ∈ (runInSession w session pin raw).trace) :
    s = session ∧ u = CKU_USER ∧ p = pin := by
  rcases runInSession_cases w session pin raw with ⟨e, _, hr⟩ | ⟨_, _, ht⟩
  · rw [hr] at hmem; simpa using hmem
  · rw [ht] at hmem
    rcases List.mem_cons.1 hmem with h1 | h1
    · simpa using h1
    · rcases List.mem_append.1 h1 with h2 | h2
      · have := (runLoggedIn_summary w session raw).2.1 _ h2
        simp [Call.isKeyUse] at this
      · simp at h2

/-- When lines 156-244 make a login call that the token refuses, they return the
login error after `OpenSession`, `Login` and `CloseSession`, and nothing else. -/
theorem runSelected_login_rejected (w : World) (slot : SlotID) (tokenInfo : TokenInfo)
    (s : SessionHandle) (u : Nat) (p : String) (e : GoError)
    (hmem : Call.Login s u p ∈ (runSelected w slot tokenInfo).trace)
    (hrej : w.Login s u p = some e) :
    (runSelected w slot tokenInfo).err = some (.login e) ∧
    w.OpenSession slot CKF_SERIAL_SESSION = .ok s ∧
    (runSelected w slot tokenInfo).trace =
      [.OpenSession slot CKF_SERIAL_SESSION, .Login s u p, .CloseSession s] := by
  rcases runSelected_cases w slot tokenInfo with ⟨ht, _⟩ | ⟨x, _, _, ht⟩ |
    ⟨session, pin, raw, hopen, _, he, ht⟩
  · rw [ht] at hmem; simp at hmem
  · rw [ht] at hmem; simp at hmem
  · have hin : Call.Login s u p ∈ (runInSession w session pin raw).trace := by
      rw [ht] at hmem
      rcases List.mem_cons.1 hmem with h1 | h1
      · cases h1
      · rcases List.mem_append.1 h1 with h2 | h2
        · exact h2
        · simp at h2
    obtain ⟨hs, hu, hp⟩ := runInSession_login w session pin raw s u p hin
    subst hs hu hp
    rcases runInSession_cases w s p raw with ⟨x, hx, hr⟩ | ⟨hnone, _, _⟩
    · rw [hrej] at hx
      cases hx
      rw [he, ht, hr]
      exact ⟨rfl, hopen, rfl⟩
    · rw [hrej] at hnone; cases hnone

/-- C8: in every run that makes a login call the token refuses, `run` fails with
the login error; the driver calls after the selection are `OpenSession`, the
`Login`, `CloseSession` on the session opened, `Finalize` and `Destroy`, so the
cleanup still runs and no key lookup or decryption call is made. -/
theorem run_login_rejected (w : World) (session : SessionHandle) (userType : Nat)
    (pin : String) (e : GoError)
    (hmem : Call.Login session userType pin ∈ (run w).trace)
    (hrej : w.Login session userType pin = some e) :
    (run w).err = some (.login e) ∧
    (∃ lib slot t, w.OpenSession slot CKF_SERIAL_SESSION = .ok session ∧
      (∀ c ∈ t, ∃ a, c = Call.GetTokenInfo a) ∧
      (run w).trace =
        [.New lib, .Initialize, .GetSlotList true] ++ t ++
          [.OpenSession slot CKF_SERIAL_SESSION, .Login session userType pin,
            .CloseSession session, .Finalize, .Destroy]) ∧
    (∀ c ∈ (run w).trace, c.isKeyUse = false) := by
  have key : (run w).err = some (.login e) ∧
      ∃ lib slot t, w.OpenSession slot CKF_SERIAL_SESSION = .ok session ∧
        (∀ c ∈ t, ∃ a, c = Call.GetTokenInfo a) ∧
        (run w).trace =
          [.New lib, .Initialize, .GetSlotList true] ++ t ++
            [.OpenSession slot CKF_SERIAL_SESSION, .Login session userType pin,
              .CloseSession session, .Finalize, .Destroy] := by
    rcases run_cases w with hr | ⟨lib, hr⟩ | ⟨lib, x, hr⟩ | ⟨lib, _, _, _, hr⟩
    · rw [hr] at hmem; simp at hmem
    · rw [hr] at hmem; simp at hmem
    · rw [hr] at hmem; simp at hmem
    · rw [hr] at hmem ⊢
      simp only [after_err, thenDeferred_err, after_trace, thenDeferred_trace] at hmem ⊢
      have hin : Call.Login session userType pin ∈ (runInitialized w).trace := by
        rcases List.mem_append.1 hmem with h1 | h1
        · simp at h1
        · rcases List.mem_append.1 h1 with h2 | h2
          · exact h2
          · simp at h2
      rcases runInitialized_cases w with ⟨x, _, hi⟩ | ⟨_, hi⟩ |
        ⟨slots, _, _, ⟨err, _, hi⟩ | ⟨_, hi⟩ | ⟨slot, tokenInfo, _, hi⟩⟩
      · rw [hi] at hin; simp at hin
      · rw [hi] at hin; simp at hin
      · rw [hi] at hin
        rcases List.mem_cons.1 hin with h1 | h1
        · cases h1
        · obtain ⟨a, ha⟩ := selectToken_calls w slots _ h1
          cases ha
      · rw [hi] at hin
        rcases List.mem_cons.1 hin with h1 | h1
        · cases h1
        · obtain ⟨a, ha⟩ := selectToken_calls w slots _ h1
          cases ha
      · have hsel : Call.Login session userType pin ∈ (runSelected w slot tokenInfo).trace := by
          rw [hi] at hin
          simp only [after_trace] at hin
          rcases List.mem_append.1 hin with h1 | h1
          · rcases List.mem_cons.1 h1 with h2 | h2
            · cases h2
            · obtain ⟨a, ha⟩ := selectToken_calls w slots _ h2
              cases ha
          · exact h1
        obtain ⟨herr, hopen, htrace⟩ :=
          runSelected_login_rejected w slot tokenInfo session userType pin e hsel hrej
        rw [hi]
        simp only [after_err, after_trace]
        rw [herr, htrace]
        exact ⟨rfl, lib, slot, (selectToken w slots).2.1, hopen, selectToken_calls w slots,
          by simp⟩
  refine ⟨key.1, key.2, ?_⟩
  obtain ⟨_, lib, slot, t, _, ht, htrace⟩ := key
  intro c hc
  rw [htrace] at hc
  rcases List.mem_append.1 hc with h1 | h1
  · rcases List.mem_append.1 h1 with h2 | h2
    · simp only [List.mem_cons, List.mem_nil_iff, or_false] at h2
      rcases h2 with rfl | rfl | rfl <;> rfl
    · obtain ⟨a, rfl⟩ := ht c h2
      rfl
  · simp only [List.mem_cons, List.mem_nil_iff, or_false] at h1
    rcases h1 with rfl | rfl | rfl | rfl | rfl <;> rfl

theorem run_login_rejected_witness :
    Call.Login 100 CKU_USER "000000" ∈ (run wrongPinWorld).trace ∧
      (run wrongPinWorld).err = some (.login "CKR_PIN_INCORRECT") :=
  ⟨by decide, (run_login_rejected wrongPinWorld 100 CKU_USER "000000" "CKR_PIN_INCORRECT"
    (by decide) rfl).1⟩

/-! ## Key lookup (C9) -/

/-- Lines 209-230: once the search is started, `FindObjectsFinal` is called once
when `FindObjects` returns objects, none or more, and not at all when it returns an
error. -/
theorem runLoggedIn_findObjectsFinal (w : World) (session : SessionHandle) (raw : Bytes)
    (hstart : w.FindObjectsInit session template = none) :
    (∀ objs, w.FindObjects session 1 = .ok objs →
      (runLoggedIn w session raw).trace.count (.FindObjectsFinal session) = 1) ∧
    (∀ e, w.FindObjects session 1 = .error e →
      (runLoggedIn w session raw).trace.count (.FindObjectsFinal session) = 0) := by
  rcases runLoggedIn_cases w session raw with
    ⟨e, h1, _, _⟩ | ⟨e, _, h2, _, ht⟩ |
    ⟨objs, _, h2, ⟨_, ht⟩ | ⟨obj0, _, ht⟩ | ⟨obj0, _, ht⟩⟩
  · rw [hstart] at h1; cases h1
  · refine ⟨fun objs ho => ?_, fun _ _ => ?_⟩
    · rw [h2] at ho; cases ho
    · rw [ht]; simp [List.count_cons]
  all_goals
    refine ⟨fun _ _ => ?_, fun e he => ?_⟩
    · rw [ht]; simp [List.count_cons]
    · rw [h2] at he; cases he

/-- C9 at the failing input: `FindObjectsInit` succeeds on session 100, `FindObjects`
returns an error, and `run` returns that error without calling `FindObjectsFinal`:
after `FindObjects` come `Logout`, `CloseSession`, `Finalize` and `Destroy`. -/
theorem findObjects_error_skips_final :
    findObjectsErrorWorld.FindObjectsInit 100 template = none ∧
    (run findObjectsErrorWorld).err = some (.findObjects "CKR_DEVICE_ERROR") ∧
    (run findObjectsErrorWorld).trace =
      [.New "/usr/lib/x86_64-linux-gnu/opensc-pkcs11.so", .Initialize, .GetSlotList true,
        .GetTokenInfo 0, .OpenSession 0 CKF_SERIAL_SESSION, .Login 100 CKU_USER "123456",
        .FindObjectsInit 100 template, .FindObjects 100 1,
        .Logout 100, .CloseSession 100, .Finalize, .Destroy] ∧
    (run findObjectsErrorWorld).trace.count (.FindObjectsFinal 100) = 0 :=
  ⟨rfl, by decide, by decide, by decide⟩

end Ec2WinPkcs11
